import Mathlib

/-
Verification of the ai-dialer lead dispatch and outcome-reconciliation engine.

The definitions below are a shallow embedding of the repository's automation
code:

  * supabase/functions/call-automation/index.ts  (the batch dispatcher)
  * src/app/api/integrations/vapi/route.ts       (the outcome reconciler)
  * src/lib/services/leads.ts                    (LeadsService.updateLead)

Timestamps are modelled as integers (milliseconds since the epoch), matching
the JavaScript Date arithmetic in the source.  The database tables (leads,
call_logs, settings) are modelled as in-memory lists; external collaborators
(the Vapi call gateway, the Resend email sender) are modelled as oracles
passed in as parameters, since only their observable result shapes the
control flow of the code under verification.
-/

/-- Lead status enumeration from the leads table row type
(src/lib/supabase/types: 'pending' | 'calling' | 'no_answer' | 'scheduled' |
'not_interested' | 'error'). -/
inductive LeadStatus
  | pending
  | calling
  | no_answer
  | scheduled
  | not_interested
  | error
deriving DecidableEq, Repr

/-- A row of the leads table.  The timezone column is a plain string in the
row type, with the empty string standing for an absent timezone (JavaScript
treats the empty string as falsy in the defaulting expressions
of initiateVapiCall).  The dispatcher reads and writes the column named
last_call_at. -/
structure Lead where
  id : String
  company_name : String
  contact_name : String
  phone : String
  email : String
  status : LeadStatus
  call_attempts : Nat
  timezone : String
  last_call_at : Option Int
  cal_booking_uid : Option String
  follow_up_email_sent : Bool
  created_at : Int
deriving DecidableEq, Repr

/-- Milliseconds per hour, the unit behind the Date.setHours arithmetic of
fetchPendingLeads. -/
def msPerHour : Int := 3600000

/-- The cutoff computed in fetchPendingLeads:
retryThreshold = new Date(); retryThreshold.setHours(getHours() - retryInterval). -/
def retryThreshold (now : Int) (retryInterval : Nat) : Int :=
  now - (retryInterval : Int) * msPerHour

/-- The row filter of the fetchPendingLeads query
(supabase/functions/call-automation/index.ts lines 58-63):
status = 'pending', call_attempts < maxAttempts, and
last_call_at is null OR last_call_at < retryThreshold. -/
def leadMatchesQuery (now : Int) (retryInterval maxAttempts : Nat) (l : Lead) : Bool :=
  decide (l.status = LeadStatus.pending) && decide (l.call_attempts < maxAttempts) &&
    (match l.last_call_at with
     | none => true
     | some t => decide (t < retryThreshold now retryInterval))

/-- Ordering used by the fetchPendingLeads query: created_at ascending. -/
def createdLE (a b : Lead) : Prop := a.created_at ≤ b.created_at

instance : DecidableRel createdLE :=
  fun a b => inferInstanceAs (Decidable (a.created_at ≤ b.created_at))

instance : IsTotal Lead createdLE :=
  ⟨fun a b => Int.le_total a.created_at b.created_at⟩

instance : IsTrans Lead createdLE :=
  ⟨fun _ _ _ h1 h2 => le_trans h1 h2⟩

/-- The fetchPendingLeads query (supabase/functions/call-automation/index.ts
lines 53-73): filter the leads table by the eligibility conjuncts, order by
created_at ascending, and limit to maxBatch rows. -/
def fetchPendingLeads (db : List Lead) (now : Int)
    (maxBatch retryInterval maxAttempts : Nat) : List Lead :=
  (List.insertionSort createdLE
      (db.filter (leadMatchesQuery now retryInterval maxAttempts))).take maxBatch

/-- Eligibility exactly as claim C1 words it (spec side, for comparison with
the code's query): the last-called timestamp is null or lies AT LEAST
retry_interval_hours before now — a non-strict comparison. -/
def isEligibleSpecC1 (now : Int) (retryInterval maxAttempts : Nat) (l : Lead) : Bool :=
  decide (l.status = LeadStatus.pending) && decide (l.call_attempts < maxAttempts) &&
    (match l.last_call_at with
     | none => true
     | some t => decide ((retryInterval : Int) * msPerHour ≤ now - t))

/-- A concrete pending lead last called exactly retry_interval_hours ago. -/
def leadBoundary : Lead :=
  { id := "lead-boundary"
    company_name := "Acme"
    contact_name := "Ann"
    phone := "+15550000001"
    email := "ann@example.test"
    status := LeadStatus.pending
    call_attempts := 0
    timezone := ""
    last_call_at := some 0
    cal_booking_uid := none
    follow_up_email_sent := false
    created_at := 0 }

/-- A concrete pending lead that was never called. -/
def leadFresh : Lead :=
  { id := "lead-fresh"
    company_name := "Birch"
    contact_name := "Bo"
    phone := "+15550000002"
    email := "bo@example.test"
    status := LeadStatus.pending
    call_attempts := 1
    timezone := "America/New_York"
    last_call_at := none
    cal_booking_uid := none
    follow_up_email_sent := false
    created_at := 5 }

/-- The booking_result object inside the report's structuredData:
a status string and the nested data.uid booking identifier.  Absent JSON
fields are modelled as none; the empty string is falsy in the code's
truthiness tests. -/
structure BookingResult where
  status : Option String
  uid : Option String
deriving DecidableEq, Repr

/-- The fields of an end-of-call report read by handleEndOfCallReport
(src/app/api/integrations/vapi/route.ts): message.call?.id,
message.analysis?.structuredData?['outcome'] and ['booking_result']. -/
structure Report where
  callId : Option String
  outcome : Option String
  booking : Option BookingResult
deriving DecidableEq, Repr

/-- A row of the call_logs table.  The dispatcher inserts
{lead_id, call_id, status: 'initiated', raw_data}; the reconciler later
fills in the report. -/
structure CallLog where
  lead_id : Option String
  call_id : String
  status : String
  report : Option Report
deriving DecidableEq, Repr

/-- JavaScript truthiness of an optional string: null/undefined and the
empty string are falsy. -/
def truthy : Option String → Bool
  | none => false
  | some s => s != ""

/-- Modelled from the spec: CallLogService.updateWithReport is invoked by
the reconciler route but its source is not in the repository snapshot.
Per the spec (section 4.3, steps 1-2): look up the CallLog by provider call
id; if absent, return no row; update the CallLog with the raw report exactly
once; if the CallLog already carries a report (duplicate delivery), return
no row so the caller skips contact mutation. -/
def updateWithReport (logs : List CallLog) (callId : String) (r : Report) :
    Option CallLog × List CallLog :=
  match logs.find? (fun lg => lg.call_id == callId) with
  | none => (none, logs)
  | some lg =>
      if lg.report.isSome then (none, logs)
      else
        (some { lg with report := some r },
          logs.map fun x => if x.call_id == callId then { x with report := some r } else x)

/-- The partial lead update objects built by the reconciler route
(type LeadUpdate = Partial of status / cal_booking_uid / follow_up_email_sent).
A none field is absent from the update and leaves the column unchanged. -/
structure LeadUpdate where
  status : Option LeadStatus
  cal_booking_uid : Option String
  follow_up_email_sent : Option Bool
deriving DecidableEq, Repr

/-- Apply a partial update to a lead row, as the supabase update(...) does:
only the fields present in the update object change. -/
def applyLeadUpdate (u : LeadUpdate) (l : Lead) : Lead :=
  { l with
    status := u.status.getD l.status
    cal_booking_uid :=
      match u.cal_booking_uid with
      | some v => some v
      | none => l.cal_booking_uid
    follow_up_email_sent := u.follow_up_email_sent.getD l.follow_up_email_sent }

/-- LeadsService.updateLead (src/lib/services/leads.ts lines 79-101):
update the row matching the id and return the updated row via
select().single(); when no row matches, single() errors and the service
returns no data. -/
def updateLead (leads : List Lead) (id : String) (u : LeadUpdate) :
    Option Lead × List Lead :=
  match leads.find? (fun l => l.id == id) with
  | none => (none, leads)
  | some l =>
      (some (applyLeadUpdate u l),
        leads.map fun x => if x.id == id then applyLeadUpdate u x else x)

/-- The status strings the route accepts before mutating the lead
(route.ts line 131). -/
def validOutcome (s : String) : Bool :=
  s == "no_answer" || s == "scheduled" || s == "not_interested"

/-- Parse an accepted outcome string into a lead status. -/
def parseStatus : String → Option LeadStatus
  | "pending" => some LeadStatus.pending
  | "calling" => some LeadStatus.calling
  | "no_answer" => some LeadStatus.no_answer
  | "scheduled" => some LeadStatus.scheduled
  | "not_interested" => some LeadStatus.not_interested
  | "error" => some LeadStatus.error
  | _ => none

/-- The booking uid extraction of route.ts lines 136-142:
bookingResult?.status === 'success' && bookingResult?.data?.uid, with the
uid kept only when truthy. -/
def bookingUidOf (b : Option BookingResult) : Option String :=
  match b with
  | none => none
  | some br =>
      if br.status == some "success" && truthy br.uid then br.uid else none

/-- The follow-up email guard of handleFollowUpEmail (route.ts lines
177-180): not already sent, and not_interested immediately or no_answer
once call_attempts has reached max_attempts. -/
def followUpCondition (l : Lead) (status : String) (maxAttempts : Nat) : Bool :=
  !l.follow_up_email_sent &&
    (status == "not_interested" ||
      (status == "no_answer" && decide (maxAttempts ≤ l.call_attempts)))

/-- handleFollowUpEmail (route.ts lines 164-211).  The Resend sender is an
oracle: emailOk is true when emailResult.error === null.  Returns the leads
table afterwards and the number of email send attempts made (0 or 1).  The
follow_up_email_sent flag is written only after a confirmed delivery. -/
def handleFollowUpEmail (leads : List Lead) (lead? : Option Lead)
    (status : String) (maxAttempts : Nat) (emailOk : Bool) : List Lead × Nat :=
  match lead? with
  | none => (leads, 0)
  | some lead =>
      if followUpCondition lead status maxAttempts then
        if emailOk then
          ((updateLead leads lead.id
              { status := none, cal_booking_uid := none,
                follow_up_email_sent := some true }).2, 1)
        else (leads, 1)
      else (leads, 0)

/-- The database state seen by the reconciler. -/
structure WebhookState where
  logs : List CallLog
  leads : List Lead
deriving DecidableEq, Repr

/-- The observable outcome of one reconciliation run: the database state
afterwards, how many follow-up email sends were attempted, and the HTTP
status of the response. -/
structure ReconcileOutcome where
  state : WebhookState
  emailAttempts : Nat
  httpStatus : Nat
deriving DecidableEq, Repr

/-- The updateData object built by handleEndOfCallReport (route.ts lines
133-143): the classified status, plus the booking uid when the outcome is
scheduled and the booking payload is a success carrying a truthy uid.  The
follow_up_email_sent field is never part of this update. -/
def reconcileUpd (r : Report) : LeadUpdate :=
  let status := r.outcome.getD "error"
  { status := parseStatus status
    cal_booking_uid :=
      if status == "scheduled" then bookingUidOf r.booking else none
    follow_up_email_sent := none }

/-- The body of handleEndOfCallReport once a truthy call id is in hand
(route.ts lines 114-158): update the call log with the report; on a missing
or already-reported log, acknowledge with 200 and touch nothing else;
otherwise classify the outcome, update the lead (adding the booking uid for
a successful scheduled booking), and run the follow-up email step. -/
def reconcileCall (s : WebhookState) (callId : String) (r : Report)
    (maxAttempts : Nat) (emailOk : Bool) : ReconcileOutcome :=
  let res := updateWithReport s.logs callId r
  match res.1 with
  | none => ⟨⟨res.2, s.leads⟩, 0, 200⟩
  | some lg =>
      let status := r.outcome.getD "error"
      if truthy lg.lead_id && validOutcome status then
        let ul := updateLead s.leads (lg.lead_id.getD "") (reconcileUpd r)
        let em := handleFollowUpEmail ul.2 ul.1 status maxAttempts emailOk
        ⟨⟨res.2, em.1⟩, em.2, 200⟩
      else ⟨⟨res.2, s.leads⟩, 0, 200⟩

/-- handleEndOfCallReport (route.ts lines 107-159): a report without a
truthy call id is acknowledged with 200 and ignored; otherwise reconcile. -/
def handleEndOfCallReport (s : WebhookState) (r : Report) (maxAttempts : Nat)
    (emailOk : Bool) : ReconcileOutcome :=
  match r.callId with
  | none => ⟨s, 0, 200⟩
  | some callId =>
      if callId == "" then ⟨s, 0, 200⟩
      else reconcileCall s callId r maxAttempts emailOk

/-- A concrete lead mid-call, used to exercise the reconciler. -/
def leadInterested : Lead :=
  { id := "lead-ni"
    company_name := "Cedar"
    contact_name := "Cam"
    phone := "+15550000003"
    email := "cam@example.test"
    status := LeadStatus.calling
    call_attempts := 1
    timezone := "America/New_York"
    last_call_at := some 50
    cal_booking_uid := none
    follow_up_email_sent := false
    created_at := 1 }

/-- A concrete dispatched call log awaiting its report. -/
def logCall1 : CallLog :=
  { lead_id := some "lead-ni", call_id := "call-1", status := "initiated", report := none }

/-- Reconciler state holding one fresh call log and its lead. -/
def stateNI : WebhookState := ⟨[logCall1], [leadInterested]⟩

/-- A not_interested end-of-call report for call-1. -/
def reportNI : Report :=
  { callId := some "call-1", outcome := some "not_interested", booking := none }

/-- A concrete lead mid-call for the scheduled-booking scenario. -/
def leadSched : Lead :=
  { id := "lead-s"
    company_name := "Dover"
    contact_name := "Dee"
    phone := "+15550000004"
    email := "dee@example.test"
    status := LeadStatus.calling
    call_attempts := 1
    timezone := "America/Denver"
    last_call_at := some 60
    cal_booking_uid := none
    follow_up_email_sent := false
    created_at := 2 }

/-- A concrete dispatched call log awaiting the scheduled report. -/
def logCall2 : CallLog :=
  { lead_id := some "lead-s", call_id := "call-2", status := "initiated", report := none }

/-- Reconciler state for the scheduled-booking scenario. -/
def stateSched : WebhookState := ⟨[logCall2], [leadSched]⟩

/-- A scheduled end-of-call report with a successful booking payload. -/
def reportSched : Report :=
  { callId := some "call-2", outcome := some "scheduled"
    booking := some { status := some "success", uid := some "bk-123" } }

/-- Shape of the DEFAULT_SETTINGS constant of the edge function. -/
structure DefaultSettings where
  max_calls_batch : Nat
  retry_interval : Nat
  max_attempts : Nat
deriving DecidableEq, Repr

/-- DEFAULT_SETTINGS (supabase/functions/call-automation/index.ts lines
13-17). -/
def DEFAULT_SETTINGS : DefaultSettings :=
  { max_calls_batch := 10, retry_interval := 24, max_attempts := 3 }

/-- A row of the settings table: the numeric columns may be absent
(undefined), in which case the handler substitutes the defaults. -/
structure SettingsRow where
  automation_enabled : Bool
  max_calls_batch : Option Nat
  retry_interval : Option Nat
  max_attempts : Option Nat
deriving DecidableEq, Repr

/-- getAutomationSettings (index.ts lines 30-50): return the fetched row;
on any fetch error, fall back to the defaults with automation_enabled set
to false. -/
def getAutomationSettings : Option SettingsRow → SettingsRow
  | some row => row
  | none =>
      { automation_enabled := false
        max_calls_batch := some DEFAULT_SETTINGS.max_calls_batch
        retry_interval := some DEFAULT_SETTINGS.retry_interval
        max_attempts := some DEFAULT_SETTINGS.max_attempts }

/-- updateLeadWithCallAttempt (index.ts lines 76-92): set
call_attempts := currentAttempts + 1 and last_call_at := now on the row
matching the lead id. -/
def updateLeadWithCallAttempt (leads : List Lead) (leadId : String)
    (currentAttempts : Nat) (now : Int) : List Lead :=
  leads.map fun l =>
    if l.id == leadId then
      { l with call_attempts := currentAttempts + 1, last_call_at := some now }
    else l

/-- createCallLog (index.ts lines 95-112): insert a call_logs row with the
lead id, the returned call id and status 'initiated'. -/
def createCallLog (logs : List CallLog) (leadId : String) (callId : String) :
    List CallLog :=
  logs ++ [{ lead_id := some leadId, call_id := callId
             status := "initiated", report := none }]

/-- The request initiateVapiCall (index.ts lines 115-165) builds: the
datetime_timezone field records the timeZone option handed to
toLocaleString for the lead_datetime string (default 'America/Chicago'),
and lead_timezone is the template variable sent to the gateway (default
'America/Los_Angeles').  JavaScript's lead.timezone || default makes the
empty string fall back too. -/
structure VapiCallPayload where
  customer_number : String
  lead_contact_name : String
  lead_email : String
  lead_phone_number : String
  lead_timezone : String
  datetime_timezone : String
deriving DecidableEq, Repr

/-- The payload construction of initiateVapiCall. -/
def initiateVapiCall (lead : Lead) : VapiCallPayload :=
  { customer_number := lead.phone
    lead_contact_name := lead.contact_name
    lead_email := lead.email
    lead_phone_number := lead.phone
    lead_timezone := if lead.timezone == "" then "America/Los_Angeles" else lead.timezone
    datetime_timezone := if lead.timezone == "" then "America/Chicago" else lead.timezone }

/-- The dispatcher's view of the database. -/
structure DispatchState where
  leads : List Lead
  call_logs : List CallLog
deriving DecidableEq, Repr

/-- The per-lead entry of the results array built in the handler's
Promise.all loop. -/
structure LeadResult where
  leadId : String
  success : Bool
deriving DecidableEq, Repr

/-- One iteration of the handler's per-lead loop (index.ts lines 208-234):
the gateway oracle yields a call id on success or none when
initiateVapiCall throws; on success a call log is inserted and the lead's
attempt counter is bumped; on failure nothing is written for that lead. -/
def processLead (gateway : Lead → Option String) (now : Int)
    (st : DispatchState) (lead : Lead) : DispatchState × LeadResult :=
  match gateway lead with
  | none => (st, { leadId := lead.id, success := false })
  | some callId =>
      ({ leads := updateLeadWithCallAttempt st.leads lead.id lead.call_attempts now
         call_logs := createCallLog st.call_logs lead.id callId },
       { leadId := lead.id, success := true })

/-- The handler's loop over the selected batch, one lead after another;
a lead's failure never stops the remaining leads from being processed. -/
def processLeads (gateway : Lead → Option String) (now : Int) :
    DispatchState → List Lead → DispatchState × List LeadResult
  | st, [] => (st, [])
  | st, l :: ls =>
      let pr := processLead gateway now st l
      let rest := processLeads gateway now pr.1 ls
      (rest.1, pr.2 :: rest.2)

/-- The distinct response shapes of the Deno.serve handler. -/
inductive CycleResponse
  | disabled
  | fetchFailed
  | noLeads
  | callsInitiated (total successful failed : Nat)
deriving DecidableEq, Repr

/-- HTTP status of each response (index.ts: only the failed leads query is
answered with status 500 on this path). -/
def CycleResponse.statusCode : CycleResponse → Nat
  | CycleResponse.fetchFailed => 500
  | _ => 200

/-- Inputs of one dispatch cycle: the settings fetch result (none models a
fetch error), whether the leads query succeeds, the wall clock, and the
call gateway oracle. -/
structure CycleInput where
  settingsFetch : Option SettingsRow
  leadsQueryOk : Bool
  now : Int
  gateway : Lead → Option String

/-- Observable outcome of one dispatch cycle. -/
structure CycleResult where
  response : CycleResponse
  state : DispatchState
  results : List LeadResult
deriving DecidableEq, Repr

/-- The Deno.serve handler (index.ts lines 168-257): read settings (with
fallback), no-op when automation is disabled, answer 500 when the leads
query fails, otherwise select the batch and process every lead. -/
def runCycle (inp : CycleInput) (st : DispatchState) : CycleResult :=
  let settings := getAutomationSettings inp.settingsFetch
  if !settings.automation_enabled then
    { response := CycleResponse.disabled, state := st, results := [] }
  else
    let maxCallsBatch := settings.max_calls_batch.getD DEFAULT_SETTINGS.max_calls_batch
    let retryInterval := settings.retry_interval.getD DEFAULT_SETTINGS.retry_interval
    let maxAttempts := settings.max_attempts.getD DEFAULT_SETTINGS.max_attempts
    if !inp.leadsQueryOk then
      { response := CycleResponse.fetchFailed, state := st, results := [] }
    else
      let sel := fetchPendingLeads st.leads inp.now maxCallsBatch retryInterval maxAttempts
      if sel.isEmpty then
        { response := CycleResponse.noLeads, state := st, results := [] }
      else
        let pr := processLeads inp.gateway inp.now st sel
        { response := CycleResponse.callsInitiated pr.2.length
            (pr.2.filter (fun r => r.success)).length
            (pr.2.filter (fun r => !r.success)).length
          state := pr.1
          results := pr.2 }

/-- Settings row with automation switched off. -/
def settingsOff : SettingsRow :=
  { automation_enabled := false, max_calls_batch := none
    retry_interval := none, max_attempts := none }

/-- Settings row with automation on, batch size 2, immediate retries. -/
def settingsOn : SettingsRow :=
  { automation_enabled := true, max_calls_batch := some 2
    retry_interval := some 0, max_attempts := some 3 }

/-- Three concrete eligible pending leads with distinct creation times. -/
def leadQ1 : Lead :=
  { id := "lead-q1", company_name := "Q1", contact_name := "Quinn"
    phone := "+15550000011", email := "q1@example.test"
    status := LeadStatus.pending, call_attempts := 0, timezone := ""
    last_call_at := none, cal_booking_uid := none
    follow_up_email_sent := false, created_at := 10 }

def leadQ2 : Lead :=
  { id := "lead-q2", company_name := "Q2", contact_name := "Quill"
    phone := "+15550000012", email := "q2@example.test"
    status := LeadStatus.pending, call_attempts := 0, timezone := ""
    last_call_at := none, cal_booking_uid := none
    follow_up_email_sent := false, created_at := 20 }

def leadQ3 : Lead :=
  { id := "lead-q3", company_name := "Q3", contact_name := "Quince"
    phone := "+15550000013", email := "q3@example.test"
    status := LeadStatus.pending, call_attempts := 0, timezone := ""
    last_call_at := none, cal_booking_uid := none
    follow_up_email_sent := false, created_at := 30 }

/-- An unsorted leads table holding the three eligible leads. -/
def dispatchDb : List Lead := [leadQ3, leadQ1, leadQ2]

/-- Dispatcher state over that table with no call logs yet. -/
def stDispatch : DispatchState := { leads := dispatchDb, call_logs := [] }

/-- Cycle input whose settings row disables automation. -/
def inpDisabled : CycleInput :=
  { settingsFetch := some settingsOff, leadsQueryOk := true, now := 1000
    gateway := fun _ => none }

/-- Cycle input whose settings fetch fails. -/
def inpNoSettings : CycleInput :=
  { settingsFetch := none, leadsQueryOk := true, now := 1000
    gateway := fun _ => none }

/-- A gateway oracle that rejects lead-q1 and accepts every other lead. -/
def gwPartial : Lead → Option String :=
  fun l => if l.id == "lead-q1" then none else some (String.append "call-" l.id)

/-
Theorems.
-/

/-- C1 counterexample: a pending contact whose last call lies exactly
retry_interval_hours before now satisfies the claim's condition (at least
retry_interval_hours before now), yet the code's query rejects it — the
query compares strictly — and never selects it. -/
theorem leadMatchesQuery_boundary_counterexample :
    isEligibleSpecC1 (24 * msPerHour) 24 3 leadBoundary = true ∧
    leadMatchesQuery (24 * msPerHour) 24 3 leadBoundary = false ∧
    leadBoundary ∉ fetchPendingLeads [leadBoundary] (24 * msPerHour) 10 24 3 := by
  decide

/-- C1 (amended): the query selects a contact as eligible iff its status is
pending, call_attempts < max_attempts, and the last-called timestamp is null
or lies STRICTLY more than retry_interval_hours before now; and every
contact returned by fetchPendingLeads satisfies the query predicate, so
contacts failing any conjunct are never selected. -/
theorem leadMatchesQuery_iff_strict (now : Int) (ri ma : Nat) (l : Lead)
    (db : List Lead) (mb : Nat) :
    (leadMatchesQuery now ri ma l = true ↔
      (l.status = LeadStatus.pending ∧ l.call_attempts < ma ∧
        (l.last_call_at = none ∨
          ∃ t, l.last_call_at = some t ∧ (ri : Int) * msPerHour < now - t))) ∧
    (l ∈ fetchPendingLeads db now mb ri ma → leadMatchesQuery now ri ma l = true) := by
  constructor
  · unfold leadMatchesQuery retryThreshold
    cases h : l.last_call_at with
    | none => simp [h]
    | some t =>
        simp [h]
        constructor
        · rintro ⟨⟨hs, ha⟩, ht⟩
          exact ⟨hs, ha, by omega⟩
        · rintro ⟨hs, ha, ht⟩
          exact ⟨⟨hs, ha⟩, by omega⟩
  · intro hmem
    have h1 : l ∈ List.insertionSort createdLE
        (db.filter (leadMatchesQuery now ri ma)) :=
      List.mem_of_mem_take hmem
    have h2 : l ∈ db.filter (leadMatchesQuery now ri ma) :=
      (List.perm_insertionSort createdLE _).mem_iff.mp h1
    exact (List.mem_filter.mp h2).2

/-- Witness for the amended C1 theorem at a concrete never-called lead. -/
theorem leadMatchesQuery_iff_strict_witness :
    leadMatchesQuery 100 24 3 leadFresh = true :=
  (leadMatchesQuery_iff_strict 100 24 3 leadFresh [leadFresh] 10).2 (by decide)

/-- Setting the report on every log with a matching call id does not change
which log the call-id lookup finds, only its report field. -/
theorem find?_after_setReport (logs : List CallLog) (cid : String) (r : Report) :
    (logs.map fun x =>
        if x.call_id == cid then { x with report := some r } else x).find?
      (fun lg => lg.call_id == cid) =
    (logs.find? (fun lg => lg.call_id == cid)).map
      (fun x => if x.call_id == cid then { x with report := some r } else x) := by
  have hpf : (fun lg : CallLog => lg.call_id == cid) ∘
      (fun x => if x.call_id == cid then { x with report := some r } else x) =
      (fun lg : CallLog => lg.call_id == cid) := by
    funext x
    by_cases h : x.call_id = cid <;> simp [h]
  rw [List.find?_map, hpf]

/-- updateWithReport on an unknown call id returns no row and leaves the
logs unchanged. -/
theorem updateWithReport_of_find?_none (logs : List CallLog) (cid : String)
    (r : Report) (h : logs.find? (fun lg => lg.call_id == cid) = none) :
    updateWithReport logs cid r = (none, logs) := by
  unfold updateWithReport
  rw [h]

/-- updateWithReport on a log that already carries a report returns no row
and leaves the logs unchanged. -/
theorem updateWithReport_of_dup (logs : List CallLog) (cid : String)
    (r : Report) (lg : CallLog)
    (h : logs.find? (fun lg => lg.call_id == cid) = some lg)
    (h2 : lg.report.isSome) :
    updateWithReport logs cid r = (none, logs) := by
  unfold updateWithReport
  rw [h]
  simp [h2]

/-- updateWithReport on a log without a report stores the report and returns
the updated row. -/
theorem updateWithReport_of_fresh (logs : List CallLog) (cid : String)
    (r : Report) (lg : CallLog)
    (h : logs.find? (fun lg => lg.call_id == cid) = some lg)
    (h2 : lg.report = none) :
    updateWithReport logs cid r =
      (some { lg with report := some r },
        logs.map fun x =>
          if x.call_id == cid then { x with report := some r } else x) := by
  unfold updateWithReport
  rw [h]
  simp [h2]

/-- Whatever branch reconcileCall takes, the resulting call-log table is the
second component of updateWithReport. -/
theorem reconcileCall_state_logs (s : WebhookState) (cid : String) (r : Report)
    (ma : Nat) (e : Bool) :
    (reconcileCall s cid r ma e).state.logs = (updateWithReport s.logs cid r).2 := by
  simp only [reconcileCall]
  cases h : (updateWithReport s.logs cid r).1 with
  | none => simp [h]
  | some lg =>
      simp only [h]
      split <;> rfl

/-- When updateWithReport returns no row, reconcileCall only acknowledges:
the leads are untouched, no email is attempted, and it answers 200. -/
theorem reconcileCall_of_skip (s : WebhookState) (cid : String) (r : Report)
    (ma : Nat) (e : Bool) (logs2 : List CallLog)
    (h : updateWithReport s.logs cid r = (none, logs2)) :
    reconcileCall s cid r ma e = ⟨⟨logs2, s.leads⟩, 0, 200⟩ := by
  simp only [reconcileCall, h]

/-- Reconciling the same call id a second time is a no-op: the state is
unchanged and no email is attempted. -/
theorem reconcileCall_idempotent (s : WebhookState) (cid : String) (r : Report)
    (ma1 ma2 : Nat) (e1 e2 : Bool) :
    reconcileCall (reconcileCall s cid r ma1 e1).state cid r ma2 e2 =
      ⟨(reconcileCall s cid r ma1 e1).state, 0, 200⟩ := by
  cases h : s.logs.find? (fun lg => lg.call_id == cid) with
  | none =>
      have hu := updateWithReport_of_find?_none s.logs cid r h
      rw [reconcileCall_of_skip s cid r ma1 e1 s.logs hu]
      exact reconcileCall_of_skip _ cid r ma2 e2 s.logs hu
  | some lg =>
      cases hr : lg.report with
      | some r0 =>
          have hu := updateWithReport_of_dup s.logs cid r lg h (by simp [hr])
          rw [reconcileCall_of_skip s cid r ma1 e1 s.logs hu]
          exact reconcileCall_of_skip _ cid r ma2 e2 s.logs hu
      | none =>
          have hfind : (reconcileCall s cid r ma1 e1).state.logs.find?
              (fun lg => lg.call_id == cid) = some { lg with report := some r } := by
            rw [reconcileCall_state_logs, updateWithReport_of_fresh s.logs cid r lg h hr]
            rw [find?_after_setReport, h]
            have hbeq := List.find?_some h
            simp only [beq_iff_eq] at hbeq
            simp [hbeq]
          have hdup := updateWithReport_of_dup
            (reconcileCall s cid r ma1 e1).state.logs cid r
            { lg with report := some r } hfind (by simp)
          exact reconcileCall_of_skip _ cid r ma2 e2 _ hdup

/-- C2: reconciliation is idempotent per provider call id — delivering the
same end-of-call report a second time (under any settings and any email
sender behaviour) leaves the whole state unchanged, attempts no follow-up
email, and still acknowledges with 200. -/
theorem handleEndOfCallReport_idempotent (s : WebhookState) (r : Report)
    (ma1 ma2 : Nat) (e1 e2 : Bool) :
    handleEndOfCallReport (handleEndOfCallReport s r ma1 e1).state r ma2 e2 =
      ⟨(handleEndOfCallReport s r ma1 e1).state, 0, 200⟩ := by
  cases hc : r.callId with
  | none => simp [handleEndOfCallReport, hc]
  | some cid =>
      by_cases hce : cid = ""
      · simp [handleEndOfCallReport, hc, hce]
      · have hb : (cid == "") = false := by simp [hce]
        simp only [handleEndOfCallReport, hc, hb, Bool.false_eq_true, if_false]
        exact reconcileCall_idempotent s cid r ma1 ma2 e1 e2

/-- Evaluation of reconcileCall on the happy path: a fresh log with a truthy
lead id, a valid classified outcome, and a lead found in the store.  The
lead row is updated with reconcileUpd and the follow-up email step runs on
the updated row. -/
theorem reconcileCall_fresh_valid (s : WebhookState) (cid : String) (r : Report)
    (ma : Nat) (e : Bool) (lg : CallLog) (lid : String) (lead : Lead)
    (h : s.logs.find? (fun x => x.call_id == cid) = some lg)
    (hr : lg.report = none)
    (hlid : lg.lead_id = some lid) (hne : lid ≠ "")
    (hv : validOutcome (r.outcome.getD "error") = true)
    (hlead : s.leads.find? (fun x => x.id == lid) = some lead) :
    reconcileCall s cid r ma e =
      ⟨⟨(updateWithReport s.logs cid r).2,
        (handleFollowUpEmail
            (s.leads.map fun x =>
              if x.id == lid then applyLeadUpdate (reconcileUpd r) x else x)
            (some (applyLeadUpdate (reconcileUpd r) lead))
            (r.outcome.getD "error") ma e).1⟩,
       (handleFollowUpEmail
            (s.leads.map fun x =>
              if x.id == lid then applyLeadUpdate (reconcileUpd r) x else x)
            (some (applyLeadUpdate (reconcileUpd r) lead))
            (r.outcome.getD "error") ma e).2,
       200⟩ := by
  have hu := updateWithReport_of_fresh s.logs cid r lg h hr
  simp [reconcileCall, hu, hlid, hv, truthy, hne, updateLead, hlead]

/-- The number of email attempts handleFollowUpEmail makes on a present lead
depends only on the guard, not on the sender's outcome. -/
theorem handleFollowUpEmail_attempts (L : List Lead) (l : Lead) (st : String)
    (ma : Nat) (e : Bool) :
    (handleFollowUpEmail L (some l) st ma e).2 =
      if followUpCondition l st ma then 1 else 0 := by
  by_cases hc : followUpCondition l st ma <;> cases e <;>
    simp [handleFollowUpEmail, hc]

/-- C3: on a successfully reconciled report (fresh log, truthy lead id,
valid classified outcome, lead present), a follow-up email send is attempted
iff the contact's follow_up_email_sent flag is false and either the outcome
is not_interested, or it is no_answer and the contact's call_attempts has
reached settings.max_attempts. -/
theorem handleEndOfCallReport_email_iff (s : WebhookState) (r : Report)
    (ma : Nat) (e : Bool) (cid : String)
    (h1 : r.callId = some cid) (h2 : cid ≠ "")
    (lg : CallLog) (h3 : s.logs.find? (fun x => x.call_id == cid) = some lg)
    (h4 : lg.report = none)
    (lid : String) (h5 : lg.lead_id = some lid) (h6 : lid ≠ "")
    (lead : Lead) (h7 : s.leads.find? (fun x => x.id == lid) = some lead)
    (h8 : validOutcome (r.outcome.getD "error") = true) :
    (handleEndOfCallReport s r ma e).emailAttempts = 1 ↔
      (lead.follow_up_email_sent = false ∧
        (r.outcome = some "not_interested" ∨
          (r.outcome = some "no_answer" ∧ ma ≤ lead.call_attempts))) := by
  have hb : (cid == "") = false := by simp [h2]
  simp only [handleEndOfCallReport, h1, hb, Bool.false_eq_true, if_false]
  rw [reconcileCall_fresh_valid s cid r ma e lg lid lead h3 h4 h5 h6 h8 h7]
  cases ho : r.outcome with
  | none =>
      rw [ho] at h8
      exact absurd h8 (by decide)
  | some s0 =>
      rw [ho] at h8
      simp only [Option.getD_some] at h8
      have h8' : (s0 = "no_answer" ∨ s0 = "scheduled") ∨ s0 = "not_interested" := by
        simpa [validOutcome] using h8
      rcases h8' with (rfl | rfl) | rfl <;>
        by_cases hf : lead.follow_up_email_sent <;>
        by_cases hm : ma ≤ lead.call_attempts <;>
        simp [handleFollowUpEmail_attempts, followUpCondition, applyLeadUpdate,
          reconcileUpd, ho, hf, hm]

/-- Witness for C3: a concrete not_interested report against a fresh log
and an unsent lead leads to exactly one email attempt. -/
theorem handleEndOfCallReport_email_iff_witness :
    (handleEndOfCallReport stateNI reportNI 3 true).emailAttempts = 1 :=
  (handleEndOfCallReport_email_iff stateNI reportNI 3 true "call-1" rfl
      (by decide) logCall1 rfl rfl "lead-ni" rfl (by decide) leadInterested rfl
      (by decide)).mpr (by decide)

/-- An update object that does not mention follow_up_email_sent leaves every
lead's flag as it was. -/
theorem updateLead_flags (L : List Lead) (id : String) (u : LeadUpdate)
    (hu : u.follow_up_email_sent = none) :
    ((updateLead L id u).2.map fun l => l.follow_up_email_sent) =
      L.map fun l => l.follow_up_email_sent := by
  unfold updateLead
  cases h : L.find? (fun l => l.id == id) with
  | none => rfl
  | some l =>
      have hf : ((fun l : Lead => l.follow_up_email_sent) ∘
          fun x => if x.id == id then applyLeadUpdate u x else x) =
          fun l : Lead => l.follow_up_email_sent := by
        funext x
        by_cases hx : x.id = id <;> simp [hx, applyLeadUpdate, hu]
      simp only [List.map_map, hf]

/-- When the email sender fails, handleFollowUpEmail leaves the leads table
untouched. -/
theorem handleFollowUpEmail_leads_of_email_fail (L : List Lead)
    (o : Option Lead) (st : String) (ma : Nat) :
    (handleFollowUpEmail L o st ma false).1 = L := by
  cases o with
  | none => rfl
  | some l =>
      by_cases hc : followUpCondition l st ma <;> simp [handleFollowUpEmail, hc]

/-- C4: in every reconciliation run in which the email sender does not
confirm delivery, no contact's follow_up_sent flag changes — in particular
it is never set to true by such a run, so the contact stays eligible for a
future send attempt. -/
theorem handleEndOfCallReport_email_fail_keeps_flags (s : WebhookState)
    (r : Report) (ma : Nat) :
    ((handleEndOfCallReport s r ma false).state.leads.map
        fun l => l.follow_up_email_sent) =
      s.leads.map fun l => l.follow_up_email_sent := by
  cases hc : r.callId with
  | none => simp [handleEndOfCallReport, hc]
  | some cid =>
      by_cases hce : cid = ""
      · simp [handleEndOfCallReport, hc, hce]
      · have hb : (cid == "") = false := by simp [hce]
        simp only [handleEndOfCallReport, hc, hb, Bool.false_eq_true, if_false]
        simp only [reconcileCall]
        cases h : (updateWithReport s.logs cid r).1 with
        | none => simp
        | some lg =>
            simp only [h]
            split
            · simp only [handleFollowUpEmail_leads_of_email_fail]
              exact updateLead_flags s.leads (lg.lead_id.getD "") (reconcileUpd r) rfl
            · simp

/-- Updating the lead matching an id does not change which row the id
lookup finds, only its updated fields. -/
theorem find?_after_updateLeadMap (L : List Lead) (lid : String) (u : LeadUpdate) :
    ((L.map fun x => if x.id == lid then applyLeadUpdate u x else x).find?
        (fun x => x.id == lid)) =
      (L.find? (fun x => x.id == lid)).map
        (fun x => if x.id == lid then applyLeadUpdate u x else x) := by
  have hpf : (fun x : Lead => x.id == lid) ∘
      (fun x => if x.id == lid then applyLeadUpdate u x else x) =
      (fun x : Lead => x.id == lid) := by
    funext x
    by_cases h : x.id = lid <;> simp [h, applyLeadUpdate]
  rw [List.find?_map, hpf]

/-- A scheduled outcome never passes the follow-up email guard, so the
email step leaves the leads table untouched. -/
theorem handleFollowUpEmail_scheduled (L : List Lead) (o : Option Lead)
    (ma : Nat) (e : Bool) :
    (handleFollowUpEmail L o "scheduled" ma e).1 = L := by
  cases o with
  | none => rfl
  | some l => simp [handleFollowUpEmail, followUpCondition]

/-- Characterisation of the booking-uid extraction: it yields a uid exactly
when the payload is present, reports success, and carries a truthy uid. -/
theorem bookingUidOf_eq_some (b? : Option BookingResult) (u : String) :
    bookingUidOf b? = some u ↔
      (∃ b, b? = some b ∧ b.status = some "success" ∧ b.uid = some u ∧ u ≠ "") := by
  cases b? with
  | none => simp [bookingUidOf]
  | some b =>
      by_cases h1 : b.status = some "success"
      · cases hu : b.uid with
        | none => simp [bookingUidOf, truthy, h1, hu]
        | some v =>
            by_cases hv : v = "" <;>
              simp [bookingUidOf, truthy, h1, hu, hv] <;> aesop
      · simp [bookingUidOf, h1]

/-- C9: on a reconciled report classified scheduled (fresh log, truthy lead
id, lead present with no booking reference yet), the contact's status is set
to scheduled, and its booking reference is set iff the report's booking
payload indicates success and carries a (truthy) booking id; otherwise it
stays null. -/
theorem handleEndOfCallReport_scheduled_booking (s : WebhookState) (r : Report)
    (ma : Nat) (e : Bool) (cid : String)
    (h1 : r.callId = some cid) (h2 : cid ≠ "")
    (lg : CallLog) (h3 : s.logs.find? (fun x => x.call_id == cid) = some lg)
    (h4 : lg.report = none)
    (lid : String) (h5 : lg.lead_id = some lid) (h6 : lid ≠ "")
    (lead : Lead) (h7 : s.leads.find? (fun x => x.id == lid) = some lead)
    (h8 : r.outcome = some "scheduled")
    (h9 : lead.cal_booking_uid = none) :
    ∃ l', (handleEndOfCallReport s r ma e).state.leads.find?
        (fun x => x.id == lid) = some l' ∧
      l'.status = LeadStatus.scheduled ∧
      ∀ u : String, l'.cal_booking_uid = some u ↔
        ∃ b, r.booking = some b ∧ b.status = some "success" ∧
          b.uid = some u ∧ u ≠ "" := by
  have hv : validOutcome (r.outcome.getD "error") = true := by
    simp [h8, validOutcome]
  have hb : (cid == "") = false := by simp [h2]
  simp only [handleEndOfCallReport, h1, hb, Bool.false_eq_true, if_false]
  rw [reconcileCall_fresh_valid s cid r ma e lg lid lead h3 h4 h5 h6 hv h7]
  simp only [h8, Option.getD_some]
  rw [handleFollowUpEmail_scheduled]
  rw [find?_after_updateLeadMap, h7]
  have hid := List.find?_some h7
  simp only [beq_iff_eq] at hid
  have hcal : (applyLeadUpdate (reconcileUpd r) lead).cal_booking_uid =
      bookingUidOf r.booking := by
    have harm : (reconcileUpd r).cal_booking_uid = bookingUidOf r.booking := by
      simp [reconcileUpd, h8]
    cases hbk : bookingUidOf r.booking <;>
      simp [applyLeadUpdate, harm, hbk, h9]
  refine ⟨applyLeadUpdate (reconcileUpd r) lead, by simp [hid], ?_, ?_⟩
  · have hst : (reconcileUpd r).status = some LeadStatus.scheduled := by
      simp [reconcileUpd, h8, parseStatus]
    simp [applyLeadUpdate, hst]
  · intro u
    rw [hcal, bookingUidOf_eq_some]

/-- Witness for C9: the concrete scheduled report reconciles and the lead
row is found updated. -/
theorem handleEndOfCallReport_scheduled_booking_witness :
    ((handleEndOfCallReport stateSched reportSched 3 true).state.leads.find?
        (fun x => x.id == "lead-s")).isSome = true := by
  obtain ⟨l', hfind, -, -⟩ :=
    handleEndOfCallReport_scheduled_booking stateSched reportSched 3 true
      "call-2" rfl (by decide) logCall2 rfl rfl "lead-s" rfl (by decide)
      leadSched rfl rfl rfl
  rw [hfind]
  rfl

/-- C5 counterexample: with the settings fetch failing, the cycle answers
HTTP 200 with the disabled message and unchanged state — not the
server-error response the claim requires for this infrastructure failure. -/
theorem runCycle_noSettings_counterexample :
    (runCycle inpNoSettings stDispatch).response.statusCode = 200 ∧
    (runCycle inpNoSettings stDispatch).response = CycleResponse.disabled ∧
    (runCycle inpNoSettings stDispatch).state = stDispatch := by
  decide

/-- C5 (amended): when the settings fetch fails, getAutomationSettings
falls back to defaults with automation_enabled = false, so the cycle is a
normal 200 no-op — no contact is dispatched and nothing is mutated; it is
not surfaced as a server error. -/
theorem runCycle_noSettings_noop (inp : CycleInput) (st : DispatchState)
    (h : inp.settingsFetch = none) :
    runCycle inp st =
      { response := CycleResponse.disabled, state := st, results := [] } ∧
    (runCycle inp st).response.statusCode = 200 := by
  have h1 : runCycle inp st =
      { response := CycleResponse.disabled, state := st, results := [] } := by
    simp [runCycle, h, getAutomationSettings]
  exact ⟨h1, by rw [h1]; rfl⟩

/-- Witness for the amended C5 theorem at the concrete failing input. -/
theorem runCycle_noSettings_noop_witness :
    runCycle inpNoSettings stDispatch =
      { response := CycleResponse.disabled, state := stDispatch, results := [] } :=
  (runCycle_noSettings_noop inpNoSettings stDispatch rfl).1

/-- C6: a dispatch cycle with automation_enabled = false is a normal no-op:
a 200 response, an empty results list (zero calls initiated), and no
contact or call-log mutation. -/
theorem runCycle_disabled_noop (inp : CycleInput) (st : DispatchState)
    (row : SettingsRow) (h : inp.settingsFetch = some row)
    (h2 : row.automation_enabled = false) :
    runCycle inp st =
      { response := CycleResponse.disabled, state := st, results := [] } ∧
    (runCycle inp st).response.statusCode = 200 := by
  have h1 : runCycle inp st =
      { response := CycleResponse.disabled, state := st, results := [] } := by
    simp [runCycle, h, getAutomationSettings, h2]
  exact ⟨h1, by rw [h1]; rfl⟩

/-- Witness for C6 at the concrete disabled settings row. -/
theorem runCycle_disabled_noop_witness :
    runCycle inpDisabled stDispatch =
      { response := CycleResponse.disabled, state := stDispatch, results := [] } :=
  (runCycle_disabled_noop inpDisabled stDispatch settingsOff rfl rfl).1

/-- C10: for a contact without a timezone, the dispatcher renders the
lead_datetime string in 'America/Chicago' but declares lead_timezone
'America/Los_Angeles' to the gateway — two different defaults in the same
request, mutually inconsistent. -/
theorem initiateVapiCall_timezone_defaults (lead : Lead)
    (h : lead.timezone = "") :
    (initiateVapiCall lead).datetime_timezone = "America/Chicago" ∧
    (initiateVapiCall lead).lead_timezone = "America/Los_Angeles" ∧
    (initiateVapiCall lead).datetime_timezone ≠
      (initiateVapiCall lead).lead_timezone := by
  refine ⟨by simp [initiateVapiCall, h], by simp [initiateVapiCall, h], ?_⟩
  simp [initiateVapiCall, h]

/-- Witness for C10 at a concrete timezone-less lead. -/
theorem initiateVapiCall_timezone_defaults_witness :
    (initiateVapiCall leadQ1).datetime_timezone ≠
      (initiateVapiCall leadQ1).lead_timezone :=
  (initiateVapiCall_timezone_defaults leadQ1 rfl).2.2

/-- C7: the batch selection takes at most max_calls_per_batch contacts
(exactly the batch size when more are eligible), returns them ordered by
creation time ascending, and every selected contact was created no later
than every eligible-but-unselected contact. -/
theorem fetchPendingLeads_batch (db : List Lead) (now : Int) (mb ri ma : Nat) :
    (fetchPendingLeads db now mb ri ma).length =
      min mb (db.filter (leadMatchesQuery now ri ma)).length ∧
    List.Sorted createdLE (fetchPendingLeads db now mb ri ma) ∧
    ∀ x ∈ fetchPendingLeads db now mb ri ma,
      ∀ y ∈ db.filter (leadMatchesQuery now ri ma),
        y ∉ fetchPendingLeads db now mb ri ma → x.created_at ≤ y.created_at := by
  unfold fetchPendingLeads
  have hperm : List.Perm
      (List.insertionSort createdLE (db.filter (leadMatchesQuery now ri ma)))
      (db.filter (leadMatchesQuery now ri ma)) :=
    List.perm_insertionSort createdLE _
  have hsort : List.Sorted createdLE
      (List.insertionSort createdLE (db.filter (leadMatchesQuery now ri ma))) :=
    List.sorted_insertionSort createdLE _
  refine ⟨?_, ?_, ?_⟩
  · rw [List.length_take, hperm.length_eq]
  · exact hsort.sublist (List.take_sublist mb _)
  · intro x hx y hy hyn
    have hy' : y ∈ List.insertionSort createdLE
        (db.filter (leadMatchesQuery now ri ma)) := hperm.mem_iff.mpr hy
    rw [← List.take_append_drop mb
      (List.insertionSort createdLE (db.filter (leadMatchesQuery now ri ma)))] at hy'
    rcases List.mem_append.mp hy' with h | h
    · exact absurd h hyn
    · exact hsort.rel_of_mem_take_of_mem_drop hx h

/-- Witness for C7: with three eligible contacts and batch size two, the
two earliest-created are selected, and a selected one was created no later
than the excluded one. -/
theorem fetchPendingLeads_batch_witness :
    leadQ1.created_at ≤ leadQ3.created_at :=
  (fetchPendingLeads_batch dispatchDb 1000 2 0 3).2.2 leadQ1 (by decide)
    leadQ3 (by decide) (by decide)

/-- The results array of the batch loop records one entry per selected
lead, successful exactly when the gateway accepted the call. -/
theorem processLeads_results (gateway : Lead → Option String) (now : Int)
    (st : DispatchState) (sel : List Lead) :
    (processLeads gateway now st sel).2 =
      sel.map fun x => ({ leadId := x.id, success := (gateway x).isSome } : LeadResult) := by
  induction sel generalizing st with
  | nil => rfl
  | cons a ls ih =>
      simp only [processLeads]
      cases hg : gateway a <;> simp [processLead, hg, ih]

/-- Bumping the attempt counter of one lead id does not change what the
lookup of a different id finds. -/
theorem updateLeadWithCallAttempt_find?_other (L : List Lead)
    (otherId targetId : String) (att : Nat) (now : Int)
    (hne : targetId ≠ otherId) :
    (updateLeadWithCallAttempt L otherId att now).find? (fun x => x.id == targetId) =
      L.find? (fun x => x.id == targetId) := by
  unfold updateLeadWithCallAttempt
  have hpf : (fun x : Lead => x.id == targetId) ∘
      (fun l => if l.id == otherId then
        { l with call_attempts := att + 1, last_call_at := some now } else l) =
      fun x : Lead => x.id == targetId := by
    funext x
    by_cases h : x.id = otherId <;> simp [h]
  rw [List.find?_map, hpf]
  cases h : L.find? (fun x => x.id == targetId) with
  | none => rfl
  | some x =>
      have hx := List.find?_some h
      simp only [beq_iff_eq] at hx
      simp [hx, hne]

/-- Bumping the attempt counter of a lead id rewrites exactly the row that
the lookup of that id finds. -/
theorem updateLeadWithCallAttempt_find?_self (L : List Lead)
    (targetId : String) (att : Nat) (now : Int) :
    (updateLeadWithCallAttempt L targetId att now).find? (fun x => x.id == targetId) =
      (L.find? (fun x => x.id == targetId)).map
        (fun x => { x with call_attempts := att + 1, last_call_at := some now }) := by
  unfold updateLeadWithCallAttempt
  have hpf : (fun x : Lead => x.id == targetId) ∘
      (fun l => if l.id == targetId then
        { l with call_attempts := att + 1, last_call_at := some now } else l) =
      fun x : Lead => x.id == targetId := by
    funext x
    by_cases h : x.id = targetId <;> simp [h]
  rw [List.find?_map, hpf]
  cases h : L.find? (fun x => x.id == targetId) with
  | none => rfl
  | some x =>
      have hx := List.find?_some h
      simp only [beq_iff_eq] at hx
      simp [hx]

/-- Creating a call log for one lead does not change the logs filtered for
a different lead. -/
theorem createCallLog_filter_other (logs : List CallLog)
    (leadId cid tid : String) (hne : leadId ≠ tid) :
    (createCallLog logs leadId cid).filter (fun lg => lg.lead_id == some tid) =
      logs.filter (fun lg => lg.lead_id == some tid) := by
  unfold createCallLog
  rw [List.filter_append]
  simp [hne]

/-- Processing one lead touches no other lead's row and no other lead's
call logs. -/
theorem processLead_preserves_other (gateway : Lead → Option String)
    (now : Int) (st : DispatchState) (a : Lead) (tid : String)
    (hne : a.id ≠ tid) :
    ((processLead gateway now st a).1.leads.find? (fun x => x.id == tid) =
      st.leads.find? (fun x => x.id == tid)) ∧
    ((processLead gateway now st a).1.call_logs.filter
        (fun lg => lg.lead_id == some tid) =
      st.call_logs.filter (fun lg => lg.lead_id == some tid)) := by
  cases hg : gateway a with
  | none => simp [processLead, hg]
  | some cid =>
      simp only [processLead, hg]
      exact ⟨updateLeadWithCallAttempt_find?_other st.leads a.id tid
          a.call_attempts now (Ne.symm hne),
        createCallLog_filter_other st.call_logs a.id cid tid hne⟩

/-- Processing a batch that does not contain a lead id leaves that id's row
and call logs untouched. -/
theorem processLeads_preserves_other (gateway : Lead → Option String)
    (now : Int) (ls : List Lead) (st : DispatchState) (tid : String) :
    tid ∉ (ls.map fun x => x.id) →
    ((processLeads gateway now st ls).1.leads.find? (fun x => x.id == tid) =
      st.leads.find? (fun x => x.id == tid)) ∧
    ((processLeads gateway now st ls).1.call_logs.filter
        (fun lg => lg.lead_id == some tid) =
      st.call_logs.filter (fun lg => lg.lead_id == some tid)) := by
  induction ls generalizing st with
  | nil => intro _; exact ⟨rfl, rfl⟩
  | cons b bs ih =>
      intro hid
      simp only [List.map_cons, List.mem_cons, not_or] at hid
      obtain ⟨hne1, hid'⟩ := hid
      simp only [processLeads]
      have hstep := processLead_preserves_other gateway now st b tid
        (fun he => hne1 he.symm)
      have hrest := ih (processLead gateway now st b).1 hid'
      exact ⟨hrest.1.trans hstep.1, hrest.2.trans hstep.2⟩

/-- The batch loop only ever appends call logs. -/
theorem processLeads_logs_mono (gateway : Lead → Option String) (now : Int)
    (ls : List Lead) (st : DispatchState) (lg : CallLog) :
    lg ∈ st.call_logs → lg ∈ (processLeads gateway now st ls).1.call_logs := by
  induction ls generalizing st with
  | nil => exact fun h => h
  | cons b bs ih =>
      intro h
      simp only [processLeads]
      apply ih
      cases hg : gateway b with
      | none => simpa [processLead, hg] using h
      | some cid =>
          simp only [processLead, hg]
          simp [createCallLog, List.mem_append]
          exact Or.inl h

/-- Per-lead effect of the batch loop, split off for induction: a rejected
lead's row and logs stay untouched; an accepted lead's row is bumped by
exactly one attempt with last_call_at set to the dispatch time, and its
initiated call log is present. -/
theorem processLeads_per_lead_aux (gateway : Lead → Option String) (now : Int)
    (sel : List Lead) (st : DispatchState) (l : Lead) :
    (sel.map fun x => x.id).Nodup → l ∈ sel →
    ((gateway l = none →
      (processLeads gateway now st sel).1.leads.find? (fun x => x.id == l.id) =
        st.leads.find? (fun x => x.id == l.id) ∧
      (processLeads gateway now st sel).1.call_logs.filter
          (fun lg => lg.lead_id == some l.id) =
        st.call_logs.filter (fun lg => lg.lead_id == some l.id)) ∧
    (∀ cid, gateway l = some cid →
      (processLeads gateway now st sel).1.leads.find? (fun x => x.id == l.id) =
        (st.leads.find? (fun x => x.id == l.id)).map
          (fun x => { x with call_attempts := l.call_attempts + 1
                             last_call_at := some now }) ∧
      ({ lead_id := some l.id, call_id := cid, status := "initiated"
         report := none } : CallLog) ∈
        (processLeads gateway now st sel).1.call_logs)) := by
  induction sel generalizing st with
  | nil => intro _ hmem; cases hmem
  | cons a ls ih =>
      intro hnodup hmem
      simp only [List.map_cons, List.nodup_cons] at hnodup
      obtain ⟨hna, hnd⟩ := hnodup
      simp only [processLeads]
      rcases List.mem_cons.mp hmem with rfl | hmem'
      · constructor
        · intro hg
          have hpl : processLead gateway now st l = (st, ⟨l.id, false⟩) := by
            simp [processLead, hg]
          simp only [hpl]
          exact processLeads_preserves_other gateway now ls st l.id
            (by simpa using hna)
        · intro cid hg
          have hpl : processLead gateway now st l =
              ({ leads := updateLeadWithCallAttempt st.leads l.id l.call_attempts now
                 call_logs := createCallLog st.call_logs l.id cid },
               ⟨l.id, true⟩) := by
            simp [processLead, hg]
          simp only [hpl]
          have hpres := processLeads_preserves_other gateway now ls
            { leads := updateLeadWithCallAttempt st.leads l.id l.call_attempts now
              call_logs := createCallLog st.call_logs l.id cid } l.id
            (by simpa using hna)
          constructor
          · exact hpres.1.trans
              (updateLeadWithCallAttempt_find?_self st.leads l.id l.call_attempts now)
          · apply processLeads_logs_mono
            simp [createCallLog, List.mem_append]
      · have hne : a.id ≠ l.id := by
          intro he
          exact hna (he ▸ List.mem_map_of_mem (fun x => x.id) hmem')
        have hstep := processLead_preserves_other gateway now st a l.id hne
        have hrest := ih (processLead gateway now st a).1 hnd hmem'
        constructor
        · intro hg
          obtain ⟨h1, h2⟩ := hrest.1 hg
          exact ⟨h1.trans hstep.1, h2.trans hstep.2⟩
        · intro cid hg
          obtain ⟨h1, h2⟩ := hrest.2 cid hg
          refine ⟨?_, h2⟩
          rw [hstep.1] at h1
          exact h1

/-- C8: every selected lead is processed (one result per lead, successful
iff the gateway accepted); a lead whose gateway invocation fails gets no
call log and keeps its row unchanged, without stopping the rest of the
batch; a lead whose invocation succeeds has call_attempts incremented by
exactly 1, last_call_at set to the dispatch time, and an initiated call log
recorded. -/
theorem processLeads_per_lead (gateway : Lead → Option String) (now : Int)
    (sel : List Lead) (st : DispatchState) (l : Lead)
    (hnodup : (sel.map fun x => x.id).Nodup) (hmem : l ∈ sel) :
    ((processLeads gateway now st sel).2 =
      sel.map fun x => ({ leadId := x.id, success := (gateway x).isSome } : LeadResult)) ∧
    (gateway l = none →
      (processLeads gateway now st sel).1.leads.find? (fun x => x.id == l.id) =
        st.leads.find? (fun x => x.id == l.id) ∧
      (processLeads gateway now st sel).1.call_logs.filter
          (fun lg => lg.lead_id == some l.id) =
        st.call_logs.filter (fun lg => lg.lead_id == some l.id)) ∧
    (∀ cid, gateway l = some cid →
      (processLeads gateway now st sel).1.leads.find? (fun x => x.id == l.id) =
        (st.leads.find? (fun x => x.id == l.id)).map
          (fun x => { x with call_attempts := l.call_attempts + 1
                             last_call_at := some now }) ∧
      ({ lead_id := some l.id, call_id := cid, status := "initiated"
         report := none } : CallLog) ∈
        (processLeads gateway now st sel).1.call_logs) :=
  ⟨processLeads_results gateway now st sel,
   (processLeads_per_lead_aux gateway now sel st l hnodup hmem).1,
   (processLeads_per_lead_aux gateway now sel st l hnodup hmem).2⟩

/-- Witness for C8: in a concrete two-lead batch whose gateway rejects the
first lead, that lead's row is left exactly as it was. -/
theorem processLeads_per_lead_witness :
    (processLeads gwPartial 777 stDispatch [leadQ1, leadQ2]).1.leads.find?
        (fun x => x.id == leadQ1.id) =
      stDispatch.leads.find? (fun x => x.id == leadQ1.id) :=
  ((processLeads_per_lead gwPartial 777 [leadQ1, leadQ2] stDispatch leadQ1
      (by decide) (by decide)).2.1 rfl).1
